import Mathlib

/-!
Verification of the browser front-end in `src/frontend/script.js` of the
Infrastructure_Classifier_production repository.

The script is shallowly embedded as pure Lean functions:

* JS numbers are modelled as exact rationals (`ℚ`); `Number.prototype.toFixed(1)`
  becomes `jsToFixed1` (round half away from zero to one decimal place).
* DOM side effects are modelled as explicit state: the upload-related element
  fields become the record `UIState`, and every `showNotification` call is
  returned as data (a `Notif` value) rather than performed.
* The network is an environment `env : Nat → NetOutcome` giving, for each
  attempt index, what the race between `fetch` and the timeout timer produced.
* `classifyImage`'s recursive retry loop becomes the structurally recursive
  `classifyImageGo`, which also records a trace (`List Step`) of the attempts
  made, the warning notifications emitted, and the backoff waits performed.
-/

instance {ε α : Type} [DecidableEq ε] [DecidableEq α] : DecidableEq (Except ε α) := fun a b =>
  match a, b with
  | .ok x, .ok y =>
    match decEq x y with
    | isTrue h => isTrue (congrArg Except.ok h)
    | isFalse h => isFalse fun hh => h (by injection hh)
  | .error x, .error y =>
    match decEq x y with
    | isTrue h => isTrue (congrArg Except.error h)
    | isFalse h => isFalse fun hh => h (by injection hh)
  | .ok _, .error _ => isFalse fun hh => by injection hh
  | .error _, .ok _ => isFalse fun hh => by injection hh

/-- Does the character list `s` start with the character list `p`? -/
def startsWithL : List Char → List Char → Bool
  | [], _ => true
  | _ :: _, [] => false
  | p :: ps, c :: cs => p == c && startsWithL ps cs

/-- Does the character list contain `pat` as a contiguous run? -/
def containsSubL (pat : List Char) : List Char → Bool
  | [] => pat.isEmpty
  | c :: cs => startsWithL pat (c :: cs) || containsSubL pat cs

/-- JavaScript `String.prototype.includes`, used by the script as
`error.message.includes('timed out')`. -/
def jsStrIncludes (s pat : String) : Bool := containsSubL pat.data s.data

/-- JavaScript `a || b` specialised to an optional string `a`: an absent or
empty (falsy) string falls back to `b`.  Used for `data.error || ...` and
`CLASS_DESCRIPTIONS[i] || ...`. -/
def jsOrS (o : Option String) (fallback : String) : String :=
  match o with
  | some s => if s = "" then fallback else s
  | none => fallback

/-- JavaScript `Array.prototype.includes` on a string array
(`CONFIG.ACCEPTED_FILE_TYPES.includes(file.type)`). -/
def listHas (l : List String) (x : String) : Bool :=
  match l with
  | [] => false
  | y :: ys => y == x || listHas ys x

/-- `CONFIG.MAX_FILE_SIZE` (script.js line 18). -/
def MAX_FILE_SIZE : Nat := 5 * 1024 * 1024

/-- `CONFIG.NOTIFICATION_DURATION` (script.js line 19). -/
def NOTIFICATION_DURATION : Nat := 3000

/-- `CONFIG.ACCEPTED_FILE_TYPES` (script.js line 20). -/
def ACCEPTED_FILE_TYPES : List String := ["image/jpeg", "image/png", "image/webp"]

/-- `CONFIG.LOADING_TIMEOUT`, the 60 s base timeout (script.js line 21). -/
def LOADING_TIMEOUT : Nat := 60000

/-- `CONFIG.ERROR_MESSAGES.FILE_TOO_LARGE` (script.js line 23). -/
def FILE_TOO_LARGE : String := "File too large. Maximum size is 5MB"

/-- `CONFIG.ERROR_MESSAGES.INVALID_FILE_TYPE` (script.js line 24). -/
def INVALID_FILE_TYPE : String := "Invalid file type. Allowed types: PNG, JPG, JPEG, WebP"

/-- `CONFIG.ERROR_MESSAGES.FILE_READ_ERROR` (script.js line 25). -/
def FILE_READ_ERROR : String := "Error reading file"

/-- `CLASS_DESCRIPTIONS` (script.js lines 31-36). -/
def CLASS_DESCRIPTIONS : List String :=
  ["Bad Infrastructure (Type A)",
   "Bad Infrastructure (Type B)",
   "Good Infrastructure (Type A)",
   "Good Infrastructure (Type B)"]

/-- A candidate file as the script sees it: `file.size`, `file.type`, and the
content a `FileReader` would deliver as a data URL. -/
structure JsFile where
  size : Nat
  type : String
  content : String
deriving DecidableEq

/-- One `showNotification(message, type)` call, recorded as data. -/
structure Notif where
  message : String
  severity : String
deriving DecidableEq

/-- `isValidFile` (script.js lines 98-109).  Returns the boolean result
together with the list of notifications the call emits. -/
def isValidFile : Option JsFile → Bool × List Notif
  | none => (false, [])
  | some file =>
    if file.size > MAX_FILE_SIZE then (false, [⟨FILE_TOO_LARGE, "error"⟩])
    else if !(listHas ACCEPTED_FILE_TYPES file.type) then (false, [⟨INVALID_FILE_TYPE, "error"⟩])
    else (true, [])

/-- The element state mutated by the upload handlers: `imageUpload.value`,
`imagePreview.src`, the `hidden` flags, `classifyBtn.disabled`, and
`resultSection.innerHTML`. -/
structure UIState where
  uploadValue : String
  previewSrc : String
  previewSectionHidden : Bool
  dropZoneHidden : Bool
  classifyBtnDisabled : Bool
  loadingHidden : Bool
  resultHidden : Bool
  resultHTML : String
deriving DecidableEq

/-- `handleFile` (script.js lines 111-126).  `readResult` is what the
`FileReader` delivers: `some dataUrl` on `onload`, `none` on `onerror`.
Returns the updated UI state and the notifications emitted. -/
def handleFile (readResult : Option String) (file : Option JsFile) (s : UIState) :
    UIState × List Notif :=
  if (isValidFile file).1 then
    match readResult with
    | some dataUrl =>
      ({ s with previewSrc := dataUrl, previewSectionHidden := false, dropZoneHidden := true,
                classifyBtnDisabled := false, resultHidden := true, resultHTML := "" }, [])
    | none => (s, [⟨FILE_READ_ERROR, "error"⟩])
  else (s, (isValidFile file).2)

/-- The `removeImageBtn` click handler (script.js lines 294-301). -/
def removeImageClick (s : UIState) : UIState :=
  { s with uploadValue := "", previewSectionHidden := true, dropZoneHidden := false,
           classifyBtnDisabled := true, resultHidden := true, resultHTML := "" }

/-- The UI configuration the remove handler establishes: no file selected,
preview hidden, drop zone shown, classify trigger disabled, result cleared —
the `Idle` state of the spec's state machine. -/
def IdleUI (s : UIState) : Prop :=
  s.uploadValue = "" ∧ s.previewSectionHidden = true ∧ s.dropZoneHidden = false ∧
  s.classifyBtnDisabled = true ∧ s.resultHidden = true ∧ s.resultHTML = ""

instance (s : UIState) : Decidable (IdleUI s) := by
  unfold IdleUI; infer_instance

/-- The JSON body of a successful classification response (the fields
`displayResults` reads). -/
structure RawResult where
  is_good : Int
  quality_confidence : ℚ
  good_infrastructure_prob : ℚ
  bad_infrastructure_prob : ℚ
  specific_class : Nat
  class_confidence : ℚ
  individual_probs : List ℚ
deriving DecidableEq

/-- `Number.prototype.toFixed(1)` on an exact rational: round half away from
zero to one decimal place. -/
def jsToFixed1 (x : ℚ) : ℚ :=
  if 0 ≤ x then ((⌊x * 10 + 1/2⌋ : ℤ) : ℚ) / 10 else -(((⌊-x * 10 + 1/2⌋ : ℤ) : ℚ) / 10)

/-- One progress bar of the rendered output: its label, the formatted
percentage it shows, and its styling tag (`"good"` or `"bad"`). -/
structure Bar where
  label : String
  pct : ℚ
  style : String
deriving DecidableEq

/-- `createProgressBar` (script.js lines 211-220): clamp the value to `[0,1]`
via `Math.max(0, Math.min(1, value))`, then format `sanitizedValue * 100`
with `toFixed(1)`. -/
def createProgressBar (label : String) (value : ℚ) (style : String) : Bar :=
  let sanitizedValue := max 0 (min 1 value)
  let percentage := jsToFixed1 (sanitizedValue * 100)
  ⟨label, percentage, style⟩

/-- JavaScript `array.map((prob, idx) => ...)` with the element index. -/
def mapWithIdx (f : Nat → ℚ → Bar) : Nat → List ℚ → List Bar
  | _, [] => []
  | i, p :: ps => f i p :: mapWithIdx f (i + 1) ps

/-- The display model produced by `displayResults` (script.js lines 222-247):
each interpolated field of the `resultsHTML` template. -/
structure Display where
  headerConfidencePct : ℚ
  qualityLabel : String
  overallConfidencePct : ℚ
  goodBar : Bar
  badBar : Bar
  classLabel : String
  classConfidencePct : ℚ
  individualBars : List Bar
deriving DecidableEq

/-- The body of `displayResults` for present data. Confidence percentages use
`(x * 100).toFixed(1)` directly; only the progress bars go through
`createProgressBar`'s clamping. -/
def renderResult (data : RawResult) : Display :=
  { headerConfidencePct := jsToFixed1 (data.quality_confidence * 100)
    qualityLabel := if data.is_good = 1 then "Good" else "Poor"
    overallConfidencePct := jsToFixed1 (data.quality_confidence * 100)
    goodBar := createProgressBar "Good Infrastructure" data.good_infrastructure_prob "good"
    badBar := createProgressBar "Poor Infrastructure" data.bad_infrastructure_prob "bad"
    classLabel := jsOrS (CLASS_DESCRIPTIONS.get? data.specific_class) "Unknown"
    classConfidencePct := jsToFixed1 (data.class_confidence * 100)
    individualBars := mapWithIdx
      (fun idx prob =>
        createProgressBar (jsOrS (CLASS_DESCRIPTIONS.get? idx) s!"Class {idx}") prob
          (if idx < 2 then "bad" else "good"))
      0 data.individual_probs }

/-- `displayResults` (script.js lines 222-247), including the
`if (!data) return;` guard. -/
def displayResults : Option RawResult → Option Display
  | none => none
  | some data => some (renderResult data)

/-- The error thrown out of one `attemptFetch` (all errors in the script are
`Error(message)` values; the constructor records which source produced the
message, which the spec names `TimeoutError`, `ServerError`, `NetworkError`
and `MalformedResponseError`). -/
inductive ClassifyErr
  | noFile
  | timeoutErr
  | serverErr (status : Nat) (message : String)
  | networkErr (message : String)
  | malformedErr (message : String)
deriving DecidableEq

/-- The `message` of the JavaScript `Error` carrying this failure; the retry
logic dispatches on this string alone. -/
def ClassifyErr.message : ClassifyErr → String
  | noFile => "No file provided"
  | timeoutErr => "Request timed out"
  | serverErr _ m => m
  | networkErr m => m
  | malformedErr m => m

/-- What the race of `fetch` against the timeout timer produced on one
attempt: the timer won; the response arrived with a non-ok status (with the
optional `error` field of its JSON body); the response arrived ok and its
body parsed (`.ok body`) or failed to parse with the given parser message;
or `fetch` itself rejected with the given message. -/
inductive NetOutcome
  | timeout
  | httpError (status : Nat) (errField : Option String)
  | ok (body : Except String RawResult)
  | transportFail (message : String)
deriving DecidableEq

/-- The message thrown for a non-ok response:
`data.error || 'Server error (status). Please try again.'` (script.js
line 189). -/
def serverErrorMsg (st : Nat) (errField : Option String) : String :=
  jsOrS errField s!"Server error ({st}). Please try again."

/-- The outcome of one try-block execution in `attemptFetch` (script.js lines
175-191): a non-ok response throws `Error(data.error || 'Server error
(status). Please try again.')`; an ok body that fails to parse rejects with
the parser's message; a transport-level `fetch` rejection propagates as-is. -/
def attemptResult : NetOutcome → Except ClassifyErr RawResult
  | .timeout => .error .timeoutErr
  | .httpError st errField => .error (.serverErr st (serverErrorMsg st errField))
  | .ok (.ok r) => .ok r
  | .ok (.error m) => .error (.malformedErr m)
  | .transportFail m => .error (.networkErr m)

/-- An observable action of `classifyImage`: starting an attempt with its
timeout budget, emitting a notification, or waiting a backoff. -/
inductive Step
  | attempt (timeoutBudget : Nat)
  | notify (message : String) (severity : String)
  | backoff (ms : Nat)
deriving DecidableEq

/-- The recursive core of `classifyImage` (script.js lines 165-202) for a
present file.  `retryCount` is the remaining retry budget (2 at the entry
call), `i` the index of the current attempt in the environment.  Mirrors the
source: `currentTimeout = baseTimeout * (retryCount + 1)`; any caught error
whose message includes `'timed out'` triggers, while retries remain, a
warning notification, a 2000 ms backoff, and the recursive call
`classifyImage(file, retryCount - 1)`; every other error is rethrown. -/
def classifyImageGo (env : Nat → NetOutcome) : Nat → Nat → Except ClassifyErr RawResult × List Step
  | retryCount, i =>
    let currentTimeout := LOADING_TIMEOUT * (retryCount + 1)
    match attemptResult (env i), retryCount with
    | .ok r, _ => (.ok r, [.attempt currentTimeout])
    | .error e, 0 => (.error e, [.attempt currentTimeout])
    | .error e, r + 1 =>
      if jsStrIncludes e.message "timed out" then
        let rest := classifyImageGo env r (i + 1)
        (rest.1,
          .attempt currentTimeout ::
          .notify s!"Cold start detected. Retrying... ({r + 1} attempts remaining)" "warning" ::
          .backoff 2000 :: rest.2)
      else (.error e, [.attempt currentTimeout])

/-- `classifyImage(file)` at its default budget `retryCount = 2`, including
the `if (!file) throw new Error('No file provided')` guard. -/
def classifyImage (env : Nat → NetOutcome) (file : Option JsFile) :
    Except ClassifyErr RawResult × List Step :=
  match file with
  | none => (.error .noFile, [])
  | some _ => classifyImageGo env 2 0

/-- Number of attempts recorded in a trace. -/
def countAttempts : List Step → Nat
  | [] => 0
  | .attempt _ :: rest => countAttempts rest + 1
  | _ :: rest => countAttempts rest

/-- A displayed notification element: the DOM node's identity plus its text
and severity class. -/
structure NotifNode where
  id : Nat
  message : String
  severity : String
deriving DecidableEq

/-- The notification-relevant document state: currently attached
`.notification` nodes, pending `setTimeout(() => notification.remove(), ...)`
timers as (fire time, node id) pairs, and a fresh-id counter. -/
structure NotifState where
  displayed : List NotifNode
  timers : List (Nat × Nat)
  nextId : Nat
deriving DecidableEq

/-- The document before any notification is shown. -/
def initNotifState : NotifState := ⟨[], [], 0⟩

/-- Membership of a natural number in a list. -/
def natElem (n : Nat) : List Nat → Bool
  | [] => false
  | x :: xs => x == n || natElem n xs

/-- The ids of the nodes whose removal timers are due by `now`. -/
def firedIds (now : Nat) (timers : List (Nat × Nat)) : List Nat :=
  (timers.filter fun t => t.1 ≤ now).map Prod.snd

/-- Deliver every pending removal timer due by `now`: each fired timer's
`notification.remove()` detaches the node with that id (a no-op when the
node was already replaced). -/
def fireTimers (now : Nat) (s : NotifState) : NotifState :=
  { displayed := s.displayed.filter fun n => !natElem n.id (firedIds now s.timers)
    timers := s.timers.filter fun t => now < t.1
    nextId := s.nextId }

/-- `showNotification` (script.js lines 249-258): build the new node, remove
every currently attached `.notification` node, append the new one, and
schedule its removal `NOTIFICATION_DURATION` ms from now. -/
def showNotification (now : Nat) (message severity : String) (s : NotifState) : NotifState :=
  { displayed := [⟨s.nextId, message, severity⟩]
    timers := s.timers ++ [(now + NOTIFICATION_DURATION, s.nextId)]
    nextId := s.nextId + 1 }

/-- An event on the notification timeline: a `showNotification` call at a
given time, or time merely reaching `now` (letting due timers fire). -/
inductive NotifEvent
  | notify (now : Nat) (message severity : String)
  | elapse (now : Nat)

/-- Process one event: timers due by `now` fire first, then a `notify` event
runs `showNotification`. -/
def notifStep (s : NotifState) : NotifEvent → NotifState
  | .notify now m sev => showNotification now m sev (fireTimers now s)
  | .elapse now => fireTimers now s

/-- The document state after a sequence of events starting from an empty
document. -/
def runNotifs (events : List NotifEvent) : NotifState :=
  events.foldl notifStep initNotifState

/-- Every timer in the state refers to an already-allocated node id. -/
def timersBelow (s : NotifState) : Prop := ∀ p ∈ s.timers, p.2 < s.nextId

/-- Sample valid file: the 2 MB JPEG of the spec's end-to-end scenario. -/
def file2MB : JsFile := ⟨2 * 1024 * 1024, "image/jpeg", "jpegbytes"⟩

lemma natElem_iff (n : Nat) (l : List Nat) : natElem n l = true ↔ n ∈ l := by
  induction l with
  | nil => simp [natElem]
  | cons x xs ih =>
    simp only [natElem, Bool.or_eq_true, beq_iff_eq, ih, List.mem_cons]
    exact or_congr eq_comm Iff.rfl

lemma isValidFile_accept (f : JsFile) (h1 : ¬ f.size > MAX_FILE_SIZE)
    (h2 : listHas ACCEPTED_FILE_TYPES f.type = true) : isValidFile (some f) = (true, []) := by
  simp [isValidFile, h1, h2]

/-- Claim C4: files over 5,242,880 bytes are rejected as too large whatever
their declared type; a file of exactly 5,242,880 bytes of type `image/png`
passes validation with no notification. -/
theorem validator_size_rules :
    (∀ f : JsFile, 5242880 < f.size →
        isValidFile (some f) = (false, [⟨FILE_TOO_LARGE, "error"⟩])) ∧
    (∀ content : String,
        isValidFile (some ⟨5242880, "image/png", content⟩) = (true, [])) := by
  constructor
  · intro f h
    have hgt : f.size > MAX_FILE_SIZE := by
      simpa [MAX_FILE_SIZE] using h
    simp [isValidFile, hgt]
  · intro content
    exact isValidFile_accept ⟨5242880, "image/png", content⟩
      (by decide : ¬ (5242880 : Nat) > MAX_FILE_SIZE)
      (by decide : listHas ACCEPTED_FILE_TYPES "image/png" = true)

theorem validator_size_rules_witness :
    (5242880 < 5242881 ∧
      isValidFile (some ⟨5242881, "text/plain", "x"⟩) = (false, [⟨FILE_TOO_LARGE, "error"⟩])) ∧
    isValidFile (some ⟨5242880, "image/png", "x"⟩) = (true, []) :=
  ⟨⟨by decide, validator_size_rules.1 ⟨5242881, "text/plain", "x"⟩ (by decide)⟩,
    validator_size_rules.2 "x"⟩

/-- Claim C5 (counterexample): a 5,242,881-byte file of unsupported type
`text/plain` is rejected with the too-large notification, not the
unsupported-type one — the size rule runs first, so the rejection reason is
not independent of size. -/
theorem validator_type_regardless_cex :
    isValidFile (some ⟨5242881, "text/plain", ""⟩) = (false, [⟨FILE_TOO_LARGE, "error"⟩]) ∧
    listHas ACCEPTED_FILE_TYPES "text/plain" = false ∧
    FILE_TOO_LARGE ≠ INVALID_FILE_TYPE := by
  refine ⟨by decide, by decide, by decide⟩

/-- Claim C5 (amended): a file of acceptable size whose declared type is
outside the accepted set is rejected with the unsupported-type
notification. -/
theorem validator_type_rule (f : JsFile) (hsize : f.size ≤ 5242880)
    (htype : listHas ACCEPTED_FILE_TYPES f.type = false) :
    isValidFile (some f) = (false, [⟨INVALID_FILE_TYPE, "error"⟩]) := by
  have hnot : ¬ f.size > MAX_FILE_SIZE := by
    simp [MAX_FILE_SIZE]; omega
  simp [isValidFile, hnot, htype]

theorem validator_type_rule_witness :
    ((1000 : Nat) ≤ 5242880 ∧ listHas ACCEPTED_FILE_TYPES "text/plain" = false) ∧
    isValidFile (some ⟨1000, "text/plain", ""⟩) = (false, [⟨INVALID_FILE_TYPE, "error"⟩]) :=
  ⟨⟨by decide, by decide⟩, validator_type_rule ⟨1000, "text/plain", ""⟩ (by decide) (by decide)⟩

/-- Claim C8: from a state where a result is displayed, the remove handler
yields the Idle configuration, and applying it a second time is safe and
yields the very same Idle configuration. -/
theorem remove_idempotent_from_result (s : UIState) (_h : s.resultHidden = false) :
    IdleUI (removeImageClick s) ∧
    removeImageClick (removeImageClick s) = removeImageClick s ∧
    IdleUI (removeImageClick (removeImageClick s)) := by
  refine ⟨?_, rfl, ?_⟩ <;> simp [IdleUI, removeImageClick]

/-- A concrete Result-state UI: preview visible, result displayed. -/
def resultUIExample : UIState :=
  ⟨"photo.png", "data:image/png;base64,AAAA", false, true, false, true, false, "<h3>ok</h3>"⟩

theorem remove_idempotent_from_result_witness :
    resultUIExample.resultHidden = false ∧
    (IdleUI (removeImageClick resultUIExample) ∧
      removeImageClick (removeImageClick resultUIExample) = removeImageClick resultUIExample ∧
      IdleUI (removeImageClick (removeImageClick resultUIExample))) :=
  ⟨rfl, remove_idempotent_from_result resultUIExample rfl⟩

/-- Claim C10: a missing file is rejected silently (no notification), the
too-large and unsupported-type rejections each emit exactly one error
notification, and in every rejection case `handleFile` leaves the UI state
unchanged. -/
theorem invalid_file_silent_and_stateless :
    isValidFile none = (false, []) ∧
    (∀ f : JsFile, MAX_FILE_SIZE < f.size →
        isValidFile (some f) = (false, [⟨FILE_TOO_LARGE, "error"⟩])) ∧
    (∀ f : JsFile, f.size ≤ MAX_FILE_SIZE → listHas ACCEPTED_FILE_TYPES f.type = false →
        isValidFile (some f) = (false, [⟨INVALID_FILE_TYPE, "error"⟩])) ∧
    (∀ (readResult : Option String) (file : Option JsFile) (s : UIState),
        (isValidFile file).1 = false →
        handleFile readResult file s = (s, (isValidFile file).2)) := by
  refine ⟨rfl, ?_, ?_, ?_⟩
  · intro f h
    have hgt : f.size > MAX_FILE_SIZE := h
    simp [isValidFile, hgt]
  · intro f hsize htype
    have hnot : ¬ f.size > MAX_FILE_SIZE := by omega
    simp [isValidFile, hnot, htype]
  · intro readResult file s h
    simp [handleFile, h]

theorem invalid_file_silent_and_stateless_witness :
    (MAX_FILE_SIZE < 6000000 ∧
      isValidFile (some ⟨6000000, "image/png", ""⟩) = (false, [⟨FILE_TOO_LARGE, "error"⟩])) ∧
    ((2000 : Nat) ≤ MAX_FILE_SIZE ∧ listHas ACCEPTED_FILE_TYPES "application/pdf" = false ∧
      isValidFile (some ⟨2000, "application/pdf", ""⟩) =
        (false, [⟨INVALID_FILE_TYPE, "error"⟩])) ∧
    ((isValidFile none).1 = false ∧
      handleFile (some "data:x") none resultUIExample = (resultUIExample, (isValidFile none).2)) :=
  ⟨⟨by decide, invalid_file_silent_and_stateless.2.1 ⟨6000000, "image/png", ""⟩ (by decide)⟩,
    ⟨by decide, by decide,
      invalid_file_silent_and_stateless.2.2.1 ⟨2000, "application/pdf", ""⟩ (by decide) (by decide)⟩,
    ⟨by decide,
      invalid_file_silent_and_stateless.2.2.2 (some "data:x") none resultUIExample (by decide)⟩⟩

/-- The trace of a run whose three attempts all fail with retry-eligible
errors: budgets 3×, 2×, 1× the 60 s base, a warning notification and a
2000 ms backoff between consecutive attempts. -/
def allTimeoutSteps : List Step :=
  [.attempt 180000,
   .notify "Cold start detected. Retrying... (2 attempts remaining)" "warning",
   .backoff 2000,
   .attempt 120000,
   .notify "Cold start detected. Retrying... (1 attempts remaining)" "warning",
   .backoff 2000,
   .attempt 60000]

/-- Claim C1: when every attempt times out, `classifyImage` performs exactly
3 attempts with timeout budgets 180000, 120000, 60000 ms (3×, 2×, 1× the
60000 ms base), emits a warning and waits the fixed 2000 ms backoff between
consecutive attempts, and terminates with the timeout error. -/
theorem classify_timeout_retry_protocol (file : JsFile) (env : Nat → NetOutcome)
    (h : ∀ i, env i = NetOutcome.timeout) :
    LOADING_TIMEOUT = 60000 ∧
    classifyImage env (some file) = (.error .timeoutErr, allTimeoutSteps) ∧
    countAttempts (classifyImage env (some file)).2 = 3 := by
  have henv : env = fun _ => NetOutcome.timeout := funext h
  subst henv
  refine ⟨rfl, ?_, ?_⟩
  · show classifyImageGo (fun _ => NetOutcome.timeout) 2 0 = (.error .timeoutErr, allTimeoutSteps)
    decide
  · show countAttempts (classifyImageGo (fun _ => NetOutcome.timeout) 2 0).2 = 3
    decide

theorem classify_timeout_retry_protocol_witness :
    (∀ i : Nat, (fun _ => NetOutcome.timeout) i = NetOutcome.timeout) ∧
    (LOADING_TIMEOUT = 60000 ∧
      classifyImage (fun _ => NetOutcome.timeout) (some file2MB) =
        (.error .timeoutErr, allTimeoutSteps) ∧
      countAttempts (classifyImage (fun _ => NetOutcome.timeout) (some file2MB)).2 = 3) :=
  ⟨fun _ => rfl,
    classify_timeout_retry_protocol file2MB (fun _ => NetOutcome.timeout) (fun _ => rfl)⟩

/-- Claim C2 (counterexample): a backend answering HTTP 500 with JSON body
`{"error": "Request timed out"}` on every attempt is retried twice — the
retry test looks only at the error message text, so this server error is
treated like a timeout.  `classifyImage` performs 3 attempts, not 1. -/
theorem server_error_retried_cex :
    classifyImage (fun _ => NetOutcome.httpError 500 (some "Request timed out")) (some file2MB) =
      (.error (.serverErr 500 "Request timed out"), allTimeoutSteps) ∧
    countAttempts
      (classifyImage (fun _ => NetOutcome.httpError 500 (some "Request timed out"))
        (some file2MB)).2 = 3 ∧
    (3 : Nat) ≠ 1 :=
  ⟨by decide, by decide, by decide⟩

/-- Claim C2 (amended): a non-ok HTTP response whose resulting error message
(the body's `error` field, or the default `Server error (status)` text) does
not contain the substring `'timed out'` makes `classifyImage` fail
immediately with the server error after exactly 1 attempt, whatever retry
budget remains. -/
theorem server_error_not_retried (env : Nat → NetOutcome) (file : JsFile)
    (st : Nat) (errField : Option String)
    (h0 : env 0 = NetOutcome.httpError st errField)
    (hmsg : jsStrIncludes (serverErrorMsg st errField) "timed out" = false) :
    (∀ retryCount, classifyImageGo env retryCount 0 =
      (.error (.serverErr st (serverErrorMsg st errField)),
        [.attempt (LOADING_TIMEOUT * (retryCount + 1))])) ∧
    classifyImage env (some file) =
      (.error (.serverErr st (serverErrorMsg st errField)), [.attempt 180000]) ∧
    countAttempts [Step.attempt 180000] = 1 := by
  have key : ∀ retryCount, classifyImageGo env retryCount 0 =
      (.error (.serverErr st (serverErrorMsg st errField)),
        [.attempt (LOADING_TIMEOUT * (retryCount + 1))]) := by
    intro rc
    cases rc with
    | zero => simp [classifyImageGo, h0, attemptResult]
    | succ r => simp [classifyImageGo, h0, attemptResult, ClassifyErr.message, hmsg]
  refine ⟨key, ?_, by decide⟩
  simpa [classifyImage, LOADING_TIMEOUT] using key 2

theorem server_error_not_retried_witness :
    ((fun _ => NetOutcome.httpError 500 none) 0 = NetOutcome.httpError 500 none ∧
      jsStrIncludes (serverErrorMsg 500 none) "timed out" = false) ∧
    ((∀ retryCount, classifyImageGo (fun _ => NetOutcome.httpError 500 none) retryCount 0 =
        (.error (.serverErr 500 (serverErrorMsg 500 none)),
          [.attempt (LOADING_TIMEOUT * (retryCount + 1))])) ∧
      classifyImage (fun _ => NetOutcome.httpError 500 none) (some file2MB) =
        (.error (.serverErr 500 (serverErrorMsg 500 none)), [.attempt 180000]) ∧
      countAttempts [Step.attempt 180000] = 1) :=
  ⟨⟨rfl, by decide⟩,
    server_error_not_retried (fun _ => NetOutcome.httpError 500 none) file2MB 500 none rfl
      (by decide)⟩

/-- Claim C3 (counterexample): a transport-level failure whose message
happens to contain `'timed out'` is retried — again the retry test looks
only at the message text — so "only timeout outcomes are retried" fails:
this non-timeout, non-HTTP failure leads to 3 attempts, not 1. -/
theorem transport_error_retried_cex :
    classifyImage (fun _ => NetOutcome.transportFail "connection timed out") (some file2MB) =
      (.error (.networkErr "connection timed out"), allTimeoutSteps) ∧
    countAttempts
      (classifyImage (fun _ => NetOutcome.transportFail "connection timed out")
        (some file2MB)).2 = 3 ∧
    (3 : Nat) ≠ 1 :=
  ⟨by decide, by decide, by decide⟩

/-- Claim C3 (amended): a transport-level failure, or a parse failure of a
successful response's body, whose message does not contain the substring
`'timed out'`, terminates `classifyImage` after exactly 1 attempt with the
network error (resp. malformed-response error), whatever retry budget
remains. -/
theorem non_timeout_failures_not_retried :
    (∀ (env : Nat → NetOutcome) (m : String) (retryCount : Nat),
        env 0 = NetOutcome.transportFail m → jsStrIncludes m "timed out" = false →
        classifyImageGo env retryCount 0 =
          (.error (.networkErr m), [.attempt (LOADING_TIMEOUT * (retryCount + 1))])) ∧
    (∀ (env : Nat → NetOutcome) (m : String) (retryCount : Nat),
        env 0 = NetOutcome.ok (.error m) → jsStrIncludes m "timed out" = false →
        classifyImageGo env retryCount 0 =
          (.error (.malformedErr m), [.attempt (LOADING_TIMEOUT * (retryCount + 1))])) := by
  constructor
  · intro env m rc h0 hm
    cases rc with
    | zero => simp [classifyImageGo, h0, attemptResult]
    | succ r => simp [classifyImageGo, h0, attemptResult, ClassifyErr.message, hm]
  · intro env m rc h0 hm
    cases rc with
    | zero => simp [classifyImageGo, h0, attemptResult]
    | succ r => simp [classifyImageGo, h0, attemptResult, ClassifyErr.message, hm]

theorem non_timeout_failures_not_retried_witness :
    ((fun _ => NetOutcome.transportFail "Failed to fetch") 0 =
        NetOutcome.transportFail "Failed to fetch" ∧
      jsStrIncludes "Failed to fetch" "timed out" = false ∧
      classifyImageGo (fun _ => NetOutcome.transportFail "Failed to fetch") 2 0 =
        (.error (.networkErr "Failed to fetch"), [.attempt (LOADING_TIMEOUT * (2 + 1))])) ∧
    ((fun _ => NetOutcome.ok (.error "Unexpected end of JSON input")) 0 =
        NetOutcome.ok (.error "Unexpected end of JSON input") ∧
      jsStrIncludes "Unexpected end of JSON input" "timed out" = false ∧
      classifyImageGo (fun _ => NetOutcome.ok (.error "Unexpected end of JSON input")) 2 0 =
        (.error (.malformedErr "Unexpected end of JSON input"),
          [.attempt (LOADING_TIMEOUT * (2 + 1))])) :=
  ⟨⟨rfl, by decide,
      non_timeout_failures_not_retried.1 (fun _ => NetOutcome.transportFail "Failed to fetch")
        "Failed to fetch" 2 rfl (by decide)⟩,
    ⟨rfl, by decide,
      non_timeout_failures_not_retried.2
        (fun _ => NetOutcome.ok (.error "Unexpected end of JSON input"))
        "Unexpected end of JSON input" 2 rfl (by decide)⟩⟩

lemma clamp01_bounds (v : ℚ) : 0 ≤ max 0 (min 1 v) ∧ max 0 (min 1 v) ≤ 1 :=
  ⟨le_max_left 0 _, max_le (by norm_num) (min_le_left 1 v)⟩

lemma jsToFixed1_nonneg_le (x : ℚ) (h0 : 0 ≤ x) (h1 : x ≤ 100) :
    0 ≤ jsToFixed1 x ∧ jsToFixed1 x ≤ 100 := by
  rw [jsToFixed1, if_pos h0]
  constructor
  · apply div_nonneg _ (by norm_num : (0 : ℚ) ≤ 10)
    have hx : (0 : ℚ) ≤ x * 10 + 1/2 := by linarith
    exact_mod_cast Int.floor_nonneg.mpr hx
  · rw [div_le_iff₀ (by norm_num : (0 : ℚ) < 10)]
    have hle : x * 10 + 1/2 ≤ 2001/2 := by linarith
    have hmono : ⌊x * 10 + 1/2⌋ ≤ ⌊(2001/2 : ℚ)⌋ := Int.floor_mono hle
    have hf : ⌊(2001/2 : ℚ)⌋ = 1000 := by norm_num
    have : ⌊x * 10 + 1/2⌋ ≤ 1000 := hf ▸ hmono
    have hq : ((⌊x * 10 + 1/2⌋ : ℤ) : ℚ) ≤ 1000 := by exact_mod_cast this
    linarith

lemma createProgressBar_pct_bounds (label : String) (v : ℚ) (style : String) :
    0 ≤ (createProgressBar label v style).pct ∧ (createProgressBar label v style).pct ≤ 100 := by
  obtain ⟨h0, h1⟩ := clamp01_bounds v
  have := jsToFixed1_nonneg_le (max 0 (min 1 v) * 100)
    (mul_nonneg h0 (by norm_num)) (by linarith)
  simpa [createProgressBar] using this

lemma createProgressBar_pct_of_one_le (label : String) (v : ℚ) (style : String) (h : 1 ≤ v) :
    (createProgressBar label v style).pct = 100 := by
  have hclamp : max 0 (min 1 v) = 1 := by
    rw [min_eq_left h]; exact max_eq_right zero_le_one
  show jsToFixed1 (max 0 (min 1 v) * 100) = 100
  rw [hclamp]
  norm_num [jsToFixed1]

lemma mapWithIdx_mem (f : Nat → ℚ → Bar) :
    ∀ (i : Nat) (ps : List ℚ) (b : Bar), b ∈ mapWithIdx f i ps → ∃ j p, b = f j p := by
  intro i ps
  induction ps generalizing i with
  | nil => intro b hb; simp [mapWithIdx] at hb
  | cons p ps ih =>
    intro b hb
    simp only [mapWithIdx, List.mem_cons] at hb
    rcases hb with h | h
    · exact ⟨i, p, h⟩
    · exact ih (i + 1) b h

/-- The success payload of the spec's end-to-end scenario
(`specific_class = 2`). -/
def sampleResult : RawResult := ⟨1, 92/100, 88/100, 12/100, 2, 95/100, [4/100, 8/100, 88/100, 0]⟩

/-- A payload with `good_infrastructure_prob = quality_confidence = 7/5`,
outside the nominal `[0,1]` range. -/
def sampleOverUnit : RawResult := ⟨1, 7/5, 7/5, 12/100, 2, 95/100, [4/100, 8/100, 88/100, 0]⟩

/-- A payload whose `good_infrastructure_prob` is 2. -/
def sampleGoodTwo : RawResult := ⟨1, 92/100, 2, 12/100, 2, 95/100, [4/100, 8/100, 88/100, 0]⟩

/-- A payload with the out-of-range `specific_class = 9`. -/
def sampleClass9 : RawResult := ⟨1, 92/100, 88/100, 12/100, 9, 95/100, [4/100, 8/100, 88/100, 0]⟩

/-- Claim C6 (counterexample): with `quality_confidence = 1.4` the rendered
confidence percentage is `140.0`, not clamped to 100 — only the progress-bar
values pass through `createProgressBar`'s clamping (there `1.4` does clamp
to `100.0`). -/
theorem render_unclamped_confidence_cex :
    (renderResult sampleOverUnit).headerConfidencePct = 140 ∧
    (renderResult sampleOverUnit).goodBar.pct = 100 ∧
    ¬ (renderResult sampleOverUnit).headerConfidencePct ≤ 100 := by
  have h1 : (renderResult sampleOverUnit).headerConfidencePct = 140 := by
    show jsToFixed1 ((7/5 : ℚ) * 100) = 140
    norm_num [jsToFixed1]
  have h2 : (renderResult sampleOverUnit).goodBar.pct = 100 := by
    show jsToFixed1 (max 0 (min 1 (7/5 : ℚ)) * 100) = 100
    norm_num [jsToFixed1]
  exact ⟨h1, h2, by rw [h1]; norm_num⟩

/-- Claim C6 (amended): `renderResult` clamps the progress-bar values
(`good_infrastructure_prob`, `bad_infrastructure_prob`, each entry of
`individual_probs`) to `[0,1]` before formatting — so their displayed
percentages always lie in `[0,100]`, and any input `≥ 1` displays as
`100.0%` — while `quality_confidence` and `class_confidence` are formatted
with one decimal place without clamping. -/
theorem render_clamps_bar_values (d : RawResult) :
    (1 ≤ d.good_infrastructure_prob → (renderResult d).goodBar.pct = 100) ∧
    (0 ≤ (renderResult d).goodBar.pct ∧ (renderResult d).goodBar.pct ≤ 100) ∧
    (0 ≤ (renderResult d).badBar.pct ∧ (renderResult d).badBar.pct ≤ 100) ∧
    (∀ b ∈ (renderResult d).individualBars, 0 ≤ b.pct ∧ b.pct ≤ 100) ∧
    (renderResult d).headerConfidencePct = jsToFixed1 (d.quality_confidence * 100) ∧
    (renderResult d).classConfidencePct = jsToFixed1 (d.class_confidence * 100) := by
  refine ⟨?_, ?_, ?_, ?_, rfl, rfl⟩
  · intro h
    exact createProgressBar_pct_of_one_le "Good Infrastructure" d.good_infrastructure_prob
      "good" h
  · exact createProgressBar_pct_bounds "Good Infrastructure" d.good_infrastructure_prob "good"
  · exact createProgressBar_pct_bounds "Poor Infrastructure" d.bad_infrastructure_prob "bad"
  · intro b hb
    obtain ⟨j, p, rfl⟩ := mapWithIdx_mem _ 0 d.individual_probs b hb
    exact createProgressBar_pct_bounds _ p _

theorem render_clamps_bar_values_witness :
    (1 : ℚ) ≤ 2 ∧ (renderResult sampleGoodTwo).goodBar.pct = 100 :=
  ⟨one_le_two, (render_clamps_bar_values sampleGoodTwo).1 one_le_two⟩

/-- Claim C7 (counterexample): the out-of-range `specific_class = 9` renders
the fallback label `'Unknown'`, not `'Class 9'` — the `Class {n}` fallback
appears only for individual-probability row labels. -/
theorem render_class9_cex :
    (renderResult sampleClass9).classLabel = "Unknown" ∧ "Unknown" ≠ "Class 9" :=
  ⟨by decide, by decide⟩

/-- Claim C7 (amended): `specific_class` 0-3 map to the four fixed labels
(2 in particular to `Good Infrastructure (Type A)`); any out-of-range value
renders the fallback `'Unknown'` rather than failing, and the `Class {n}`
fallback is used for individual-probability rows beyond index 3. -/
theorem render_class_labels (d : RawResult) :
    (d.specific_class = 0 → (renderResult d).classLabel = "Bad Infrastructure (Type A)") ∧
    (d.specific_class = 1 → (renderResult d).classLabel = "Bad Infrastructure (Type B)") ∧
    (d.specific_class = 2 → (renderResult d).classLabel = "Good Infrastructure (Type A)") ∧
    (d.specific_class = 3 → (renderResult d).classLabel = "Good Infrastructure (Type B)") ∧
    (4 ≤ d.specific_class → (renderResult d).classLabel = "Unknown") := by
  refine ⟨?_, ?_, ?_, ?_, ?_⟩ <;> intro h
  · simp [renderResult, h, CLASS_DESCRIPTIONS, jsOrS]
  · simp [renderResult, h, CLASS_DESCRIPTIONS, jsOrS]
  · simp [renderResult, h, CLASS_DESCRIPTIONS, jsOrS]
  · simp [renderResult, h, CLASS_DESCRIPTIONS, jsOrS]
  · have hnone : CLASS_DESCRIPTIONS.get? d.specific_class = none :=
      List.get?_eq_none.mpr (by simp [CLASS_DESCRIPTIONS]; omega)
    have hnone2 : CLASS_DESCRIPTIONS[d.specific_class]? = none := by
      rw [← List.get?_eq_getElem?]; exact hnone
    simp [renderResult, hnone, hnone2, jsOrS]

theorem render_class_labels_witness :
    (sampleResult.specific_class = 2 ∧
      (renderResult sampleResult).classLabel = "Good Infrastructure (Type A)") ∧
    (sampleClass9.specific_class ≥ 4 ∧ (renderResult sampleClass9).classLabel = "Unknown") :=
  ⟨⟨rfl, (render_class_labels sampleResult).2.2.1 rfl⟩,
    ⟨by decide, (render_class_labels sampleClass9).2.2.2.2 (by decide)⟩⟩

lemma mem_firedIds {now : Nat} {timers : List (Nat × Nat)} {i : Nat} :
    i ∈ firedIds now timers ↔ ∃ p ∈ timers, p.1 ≤ now ∧ p.2 = i := by
  simp [firedIds, List.mem_map, List.mem_filter, and_assoc]

lemma notifStep_len_le_one (s : NotifState) (e : NotifEvent) (h : s.displayed.length ≤ 1) :
    (notifStep s e).displayed.length ≤ 1 := by
  cases e with
  | notify now m sev => simp [notifStep, showNotification]
  | elapse now =>
    simp only [notifStep, fireTimers]
    exact le_trans (List.length_filter_le _ _) h

lemma runNotifs_aux (evs : List NotifEvent) :
    ∀ s : NotifState, s.displayed.length ≤ 1 →
      (evs.foldl notifStep s).displayed.length ≤ 1 := by
  induction evs with
  | nil => intro s h; simpa using h
  | cons e evs ih => intro s h; exact ih _ (notifStep_len_le_one s e h)

lemma timersBelow_fireTimers (now : Nat) (s : NotifState) (h : timersBelow s) :
    timersBelow (fireTimers now s) := by
  intro p hp
  have hp2 : p ∈ s.timers.filter fun t => now < t.1 := hp
  exact h p (List.mem_filter.mp hp2).1

lemma timersBelow_show (now : Nat) (m sev : String) (s : NotifState) (h : timersBelow s) :
    timersBelow (showNotification now m sev s) := by
  intro p hp
  have hp2 : p ∈ s.timers ++ [(now + NOTIFICATION_DURATION, s.nextId)] := hp
  show p.2 < s.nextId + 1
  rcases List.mem_append.mp hp2 with h1 | h1
  · exact Nat.lt_succ_of_lt (h p h1)
  · have : p = (now + NOTIFICATION_DURATION, s.nextId) := by simpa using h1
    rw [this]
    exact Nat.lt_succ_self _

lemma timersBelow_run (evs : List NotifEvent) : timersBelow (runNotifs evs) := by
  suffices h : ∀ s, timersBelow s → timersBelow (evs.foldl notifStep s) from
    h initNotifState (by intro p hp; simp [initNotifState] at hp)
  induction evs with
  | nil => intro s hs; simpa using hs
  | cons e evs ih =>
    intro s hs
    apply ih
    cases e with
    | notify now m sev => exact timersBelow_show _ _ _ _ (timersBelow_fireTimers _ _ hs)
    | elapse now => exact timersBelow_fireTimers _ _ hs

lemma notif_removed_after (s : NotifState) (now t : Nat) (m sev : String)
    (h : now + NOTIFICATION_DURATION ≤ t) :
    (fireTimers t (showNotification now m sev s)).displayed = [] := by
  have hmem : s.nextId ∈ firedIds t (s.timers ++ [(now + NOTIFICATION_DURATION, s.nextId)]) :=
    mem_firedIds.mpr ⟨(now + NOTIFICATION_DURATION, s.nextId), by simp, h, rfl⟩
  have hn : natElem s.nextId
      (firedIds t (s.timers ++ [(now + NOTIFICATION_DURATION, s.nextId)])) = true :=
    (natElem_iff _ _).mpr hmem
  simp [fireTimers, showNotification, hn]

lemma notif_persists_before (s : NotifState) (hb : timersBelow s) (now t : Nat) (m sev : String)
    (ht : t < now + NOTIFICATION_DURATION) :
    (fireTimers t (showNotification now m sev s)).displayed = [⟨s.nextId, m, sev⟩] := by
  have hnot : natElem s.nextId
      (firedIds t (s.timers ++ [(now + NOTIFICATION_DURATION, s.nextId)])) = false := by
    rw [← Bool.not_eq_true]
    intro hcon
    obtain ⟨p, hp, hle, hsnd⟩ := mem_firedIds.mp ((natElem_iff _ _).mp hcon)
    rcases List.mem_append.mp hp with h1 | h1
    · have hlt := hb p h1
      omega
    · have hps : p = (now + NOTIFICATION_DURATION, s.nextId) := by simpa using h1
      rw [hps] at hle
      simp at hle
      omega
  simp [fireTimers, showNotification, hnot]

/-- Claim C9: at most one notification is ever displayed; every
`showNotification` call replaces (does not append to) whatever is displayed;
the new notification is removed once `NOTIFICATION_DURATION` (3000 ms) has
elapsed, and is still displayed at any earlier time unless a later call
replaced it. -/
theorem notification_single_slot :
    (∀ events : List NotifEvent, (runNotifs events).displayed.length ≤ 1) ∧
    (∀ (s : NotifState) (now : Nat) (m sev : String),
        (showNotification now m sev s).displayed = [⟨s.nextId, m, sev⟩]) ∧
    (∀ (s : NotifState) (now t : Nat) (m sev : String),
        now + NOTIFICATION_DURATION ≤ t →
        (fireTimers t (showNotification now m sev s)).displayed = []) ∧
    (∀ (events : List NotifEvent) (now t : Nat) (m sev : String),
        t < now + NOTIFICATION_DURATION →
        (fireTimers t (notifStep (runNotifs events) (.notify now m sev))).displayed =
          [⟨(runNotifs events).nextId, m, sev⟩]) := by
  refine ⟨?_, ?_, ?_, ?_⟩
  · intro events
    exact runNotifs_aux events initNotifState (by decide)
  · intro s now m sev
    rfl
  · intro s now t m sev h
    exact notif_removed_after s now t m sev h
  · intro events now t m sev ht
    have hb : timersBelow (fireTimers now (runNotifs events)) :=
      timersBelow_fireTimers _ _ (timersBelow_run events)
    exact notif_persists_before (fireTimers now (runNotifs events)) hb now t m sev ht

theorem notification_single_slot_witness :
    ((0 : Nat) + NOTIFICATION_DURATION ≤ 3000 ∧
      (fireTimers 3000 (showNotification 0 "saved" "warning" initNotifState)).displayed = []) ∧
    ((2999 : Nat) < 0 + NOTIFICATION_DURATION ∧
      (fireTimers 2999 (notifStep (runNotifs []) (.notify 0 "saved" "warning"))).displayed =
        [⟨(runNotifs []).nextId, "saved", "warning"⟩]) :=
  ⟨⟨by decide,
      notification_single_slot.2.2.1 initNotifState 0 3000 "saved" "warning" (by decide)⟩,
    ⟨by decide,
      notification_single_slot.2.2.2 [] 0 2999 "saved" "warning" (by decide)⟩⟩
